import Mathlib

/-!
Verification of the quantity-conservation ledger of the retail management
system (Flask app in app.py, SQLite data layer in database.py).

The embedding below mirrors the source tables and functions:
  rakes, loading_slips, builty, warehouse_stock, ebills, warehouses
and the operations
  get_rake_balance, add_loading_slip, rakepoint_create_loading_slip,
  close_rake, reopen_rake, link_loading_slip_to_builty,
  add_warehouse_stock_in, warehouse_stock_in (route),
  add_warehouse_stock_out, warehouse_stock_out (route),
  get_warehouse_balance_stock, add_ebill.

Numeric REAL columns are modelled as rationals; ids as naturals.
-/

namespace RMS

/-- Row of the rakes table (database.py, initialize_database): rake_code is
UNIQUE, rr_quantity REAL NOT NULL, is_closed INTEGER DEFAULT 0,
closed_at TIMESTAMP, shortage REAL DEFAULT 0. -/
structure Rake where
  rakeCode : String
  rrQuantity : ℚ
  isClosed : Bool
  closedAt : Option Nat
  shortage : ℚ
deriving Repr, DecidableEq

/-- Row of the loading_slips table: slip_id PRIMARY KEY AUTOINCREMENT,
rake_code, slip_number, quantity_mt REAL NOT NULL, builty_id nullable. -/
structure LoadingSlip where
  slipId : Nat
  rakeCode : String
  slipNumber : Nat
  quantityMt : ℚ
  builtyId : Option Nat
deriving Repr, DecidableEq

/-- Row of the builty table: builty_id PRIMARY KEY, builty_number UNIQUE,
quantity_mt REAL NOT NULL. -/
structure Builty where
  builtyId : Nat
  builtyNumber : String
  quantityMt : ℚ
deriving Repr, DecidableEq

/-- transaction_type column of warehouse_stock: the strings IN and OUT. -/
inductive TxType where
  | tIn : TxType
  | tOut : TxType
deriving Repr, DecidableEq

/-- Row of the warehouse_stock table: stock_id PRIMARY KEY, warehouse_id,
builty_id nullable, transaction_type, quantity_mt. -/
structure StockEntry where
  stockId : Nat
  warehouseId : Nat
  builtyId : Option Nat
  transactionType : TxType
  quantityMt : ℚ
deriving Repr, DecidableEq

/-- Row of the ebills table: ebill_id PRIMARY KEY AUTOINCREMENT,
builty_id INTEGER NOT NULL (no UNIQUE constraint, only a plain performance
index idx_ebills_builty_id), ebill_number TEXT UNIQUE NOT NULL,
amount REAL NOT NULL. -/
structure Ebill where
  ebillId : Nat
  builtyId : Nat
  ebillNumber : String
  amount : ℚ
deriving Repr, DecidableEq

/-- Row of the warehouses table: warehouse_id PRIMARY KEY, warehouse_name. -/
structure Warehouse where
  warehouseId : Nat
  warehouseName : String
deriving Repr, DecidableEq

/-- The database state: the ledger tables plus the AUTOINCREMENT counters
for the rowid-assigned primary keys. -/
structure DB where
  rakes : List Rake
  loadingSlips : List LoadingSlip
  builties : List Builty
  warehouses : List Warehouse
  warehouseStock : List StockEntry
  ebills : List Ebill
  nextSlipId : Nat
  nextBuiltyId : Nat
  nextStockId : Nat
  nextEbillId : Nat
deriving Repr, DecidableEq

/-- SELECT COALESCE(SUM(quantity_mt), 0) FROM loading_slips WHERE rake_code = ?
(the dispatched figure used by get_rake_balance and close_rake). -/
def dispatchedOf (slips : List LoadingSlip) (code : String) : ℚ :=
  ((slips.filter (fun s => s.rakeCode = code)).map (fun s => s.quantityMt)).sum

/-- SELECT * FROM rakes WHERE rake_code = ? (first row, as fetchone). -/
def getRakeByCode (db : DB) (code : String) : Option Rake :=
  db.rakes.find? (fun r => r.rakeCode = code)

/-- Result record of database.get_rake_balance. -/
structure RakeBalance where
  total : ℚ
  dispatched : ℚ
  remaining : ℚ
deriving Repr, DecidableEq

/-- database.get_rake_balance: None when the rake code is unknown, else
total = rr_quantity, dispatched = sum over loading_slips of the code,
remaining = total - dispatched.  No is_closed filter. -/
def get_rake_balance (db : DB) (code : String) : Option RakeBalance :=
  match getRakeByCode db code with
  | none => none
  | some r =>
      some { total := r.rrQuantity,
             dispatched := dispatchedOf db.loadingSlips code,
             remaining := r.rrQuantity - dispatchedOf db.loadingSlips code }

/-- database.add_loading_slip: unconditional INSERT INTO loading_slips,
returns the new slip_id. -/
def add_loading_slip (db : DB) (rakeCode : String) (slipNumber : Nat)
    (quantityMt : ℚ) (builtyId : Option Nat) : Nat × DB :=
  (db.nextSlipId,
   { db with
       loadingSlips := db.loadingSlips ++
         [{ slipId := db.nextSlipId, rakeCode := rakeCode,
            slipNumber := slipNumber, quantityMt := quantityMt,
            builtyId := builtyId }],
       nextSlipId := db.nextSlipId + 1 })

/-- Outcome of the POST branch of app.rakepoint_create_loading_slip. -/
inductive SlipResult where
  | invalidRake : SlipResult
  | insufficientBalance : ℚ → ℚ → SlipResult
  | created : Nat → SlipResult
deriving Repr, DecidableEq

/-- app.rakepoint_create_loading_slip (POST): looks up the rake balance
(error when the code is unknown), rejects when quantity_in_mt exceeds the
remaining balance, and otherwise inserts the slip via add_loading_slip.
The handler performs no is_closed check on the rake. -/
def rakepoint_create_loading_slip (db : DB) (rakeCode : String)
    (serialNumber : Nat) (quantityMt : ℚ) : SlipResult × DB :=
  match get_rake_balance db rakeCode with
  | none => (SlipResult.invalidRake, db)
  | some bal =>
      if bal.remaining < quantityMt then
        (SlipResult.insufficientBalance bal.remaining quantityMt, db)
      else
        let res := add_loading_slip db rakeCode serialNumber quantityMt none
        (SlipResult.created res.1, res.2)

/-- Outcome of database.close_rake. -/
inductive CloseResult where
  | notFound : CloseResult
  | closed : ℚ → CloseResult
deriving Repr, DecidableEq

/-- Row effect of UPDATE rakes SET is_closed = 1, closed_at = now,
shortage = s WHERE rake_code = code. -/
def closeRow (code : String) (s : ℚ) (now : Nat) (x : Rake) : Rake :=
  if x.rakeCode = code then
    { x with isClosed := true, closedAt := some now, shortage := s }
  else x

/-- database.close_rake: NotFound for an unknown code; otherwise computes
shortage = rr_quantity - dispatched and updates the rake row with
is_closed = 1, closed_at = CURRENT_TIMESTAMP, shortage.  There is no check
that the rake is still open. -/
def close_rake (db : DB) (code : String) (now : Nat) : CloseResult × DB :=
  match getRakeByCode db code with
  | none => (CloseResult.notFound, db)
  | some r =>
      let s := r.rrQuantity - dispatchedOf db.loadingSlips code
      (CloseResult.closed s,
       { db with rakes := db.rakes.map (closeRow code s now) })

/-- Outcome of database.reopen_rake. -/
inductive ReopenResult where
  | notFound : ReopenResult
  | notClosed : ReopenResult
  | reopened : ReopenResult
deriving Repr, DecidableEq

/-- Row effect of UPDATE rakes SET is_closed = 0, closed_at = NULL,
shortage = 0 WHERE rake_code = code. -/
def reopenRow (code : String) (x : Rake) : Rake :=
  if x.rakeCode = code then
    { x with isClosed := false, closedAt := none, shortage := 0 }
  else x

/-- database.reopen_rake: NotFound for an unknown code, an error when the
rake is not closed, and otherwise UPDATE rakes SET is_closed = 0,
closed_at = NULL, shortage = 0 — the stored shortage is zeroed. -/
def reopen_rake (db : DB) (code : String) : ReopenResult × DB :=
  match getRakeByCode db code with
  | none => (ReopenResult.notFound, db)
  | some r =>
      if r.isClosed = false then (ReopenResult.notClosed, db)
      else
        (ReopenResult.reopened,
         { db with rakes := db.rakes.map (reopenRow code) })

/-- SELECT slip_id, builty_id FROM loading_slips WHERE slip_id = ? (fetchone). -/
def findSlip (db : DB) (slipId : Nat) : Option LoadingSlip :=
  db.loadingSlips.find? (fun s => s.slipId = slipId)

/-- Row effect of UPDATE loading_slips SET builty_id = b WHERE slip_id = i. -/
def linkRow (i b : Nat) (s : LoadingSlip) : LoadingSlip :=
  if s.slipId = i then { s with builtyId := some b } else s

/-- database.link_loading_slip_to_builty: False when the slip does not
exist; otherwise UPDATE loading_slips SET builty_id = ? WHERE slip_id = ?
and return True.  An existing different link only produces a printed
warning — the update overwrites it unconditionally. -/
def link_loading_slip_to_builty (db : DB) (slipId builtyId : Nat) :
    Bool × DB :=
  match findSlip db slipId with
  | none => (false, db)
  | some _ =>
      (true,
       { db with loadingSlips := db.loadingSlips.map (linkRow slipId builtyId) })

/-- Sum of IN quantities of a warehouse (the stock_in aggregate of
database.get_warehouse_balance_stock). -/
def stockInOf (entries : List StockEntry) (wid : Nat) : ℚ :=
  ((entries.filter (fun e =>
      e.warehouseId = wid ∧ e.transactionType = TxType.tIn)).map
    (fun e => e.quantityMt)).sum

/-- Sum of OUT quantities of a warehouse (the stock_out aggregate of
database.get_warehouse_balance_stock). -/
def stockOutOf (entries : List StockEntry) (wid : Nat) : ℚ :=
  ((entries.filter (fun e =>
      e.warehouseId = wid ∧ e.transactionType = TxType.tOut)).map
    (fun e => e.quantityMt)).sum

/-- Result record of database.get_warehouse_balance_stock. -/
structure WarehouseBalance where
  stockIn : ℚ
  stockOut : ℚ
  balance : ℚ
deriving Repr, DecidableEq

/-- database.get_warehouse_balance_stock: per-warehouse SUM of IN and OUT
quantities and their difference. -/
def get_warehouse_balance_stock (db : DB) (wid : Nat) : WarehouseBalance :=
  { stockIn := stockInOf db.warehouseStock wid,
    stockOut := stockOutOf db.warehouseStock wid,
    balance := stockInOf db.warehouseStock wid - stockOutOf db.warehouseStock wid }

/-- database.add_warehouse_stock_in: unconditional INSERT of an IN row,
returns the new stock_id. -/
def add_warehouse_stock_in (db : DB) (wid : Nat) (builtyId : Option Nat)
    (quantityMt : ℚ) : Nat × DB :=
  (db.nextStockId,
   { db with
       warehouseStock := db.warehouseStock ++
         [{ stockId := db.nextStockId, warehouseId := wid,
            builtyId := builtyId, transactionType := TxType.tIn,
            quantityMt := quantityMt }],
       nextStockId := db.nextStockId + 1 })

/-- database.add_warehouse_stock_out: unconditional INSERT of an OUT row,
returns the new stock_id. -/
def add_warehouse_stock_out (db : DB) (wid : Nat) (builtyId : Option Nat)
    (quantityMt : ℚ) : Nat × DB :=
  (db.nextStockId,
   { db with
       warehouseStock := db.warehouseStock ++
         [{ stockId := db.nextStockId, warehouseId := wid,
            builtyId := builtyId, transactionType := TxType.tOut,
            quantityMt := quantityMt }],
       nextStockId := db.nextStockId + 1 })

/-- Does a warehouses row with this id exist (the JOIN warehouses w ON
ws.warehouse_id = w.warehouse_id condition of the duplicate query). -/
def isRegisteredWarehouse (db : DB) (wid : Nat) : Bool :=
  db.warehouses.any (fun w => w.warehouseId = wid)

/-- SELECT ... FROM warehouse_stock ws JOIN warehouses w ON
ws.warehouse_id = w.warehouse_id WHERE ws.builty_id = ? AND
ws.transaction_type = IN — the duplicate check of app.warehouse_stock_in.
It filters on the builty alone regardless of the call's target warehouse,
but the inner join keeps only stock rows whose warehouse id has a
warehouses row: an IN entry recorded under a dangling warehouse id is
invisible to the check. -/
def hasStockInForBuilty (db : DB) (b : Nat) : Bool :=
  db.warehouseStock.any (fun e =>
    isRegisteredWarehouse db e.warehouseId ∧
    e.builtyId = some b ∧ e.transactionType = TxType.tIn)

/-- Outcome of the POST branch of app.warehouse_stock_in. -/
inductive StockInResult where
  | duplicateEntry : StockInResult
  | recorded : Nat → StockInResult
deriving Repr, DecidableEq

/-- app.warehouse_stock_in (POST): when a builty id is supplied, any
existing IN row for that builty — at any warehouse — aborts the request
with a duplicate error and no insert; otherwise the entry is inserted via
add_warehouse_stock_in.  No comparison against the builty quantity is
performed. -/
def warehouse_stock_in (db : DB) (wid : Nat) (builtyId : Option Nat)
    (quantityMt : ℚ) : StockInResult × DB :=
  match builtyId with
  | some b =>
      if hasStockInForBuilty db b then (StockInResult.duplicateEntry, db)
      else
        let res := add_warehouse_stock_in db wid (some b) quantityMt
        (StockInResult.recorded res.1, res.2)
  | none =>
      let res := add_warehouse_stock_in db wid none quantityMt
      (StockInResult.recorded res.1, res.2)

/-- database.add_builty (the columns the ledger claims use): INSERT INTO
builty.  The builty_number TEXT UNIQUE NOT NULL constraint makes the
INSERT raise when the number is already taken; the handler rolls back and
returns None, so nothing is stored. -/
def add_builty (db : DB) (builtyNumber : String) (quantityMt : ℚ) :
    Option Nat × DB :=
  if db.builties.any (fun x => x.builtyNumber = builtyNumber) then (none, db)
  else
    (some db.nextBuiltyId,
     { db with
         builties := db.builties ++
           [{ builtyId := db.nextBuiltyId, builtyNumber := builtyNumber,
              quantityMt := quantityMt }],
         nextBuiltyId := db.nextBuiltyId + 1 })

/-- Outcome of the POST branch of app.warehouse_stock_out. -/
inductive StockOutResult where
  | invalidWarehouse : StockOutResult
  | insufficientStock : StockOutResult
  | builtyCreateFailed : StockOutResult
  | recorded : Nat → StockOutResult
deriving Repr, DecidableEq

/-- app.warehouse_stock_out (POST): resolves the warehouse by name,
rejects when the warehouse balance is below the requested quantity, then
creates the auto-numbered stock-OUT builty via add_builty — when that
insert fails (builty number already taken) the route flashes an error and
records nothing — and finally inserts the OUT stock row.  The generated
builty number (BLTO-timestamp in the source) is passed in. -/
def warehouse_stock_out (db : DB) (warehouseName : String)
    (builtyNumber : String) (quantityMt : ℚ) : StockOutResult × DB :=
  match db.warehouses.find? (fun w => w.warehouseName = warehouseName) with
  | none => (StockOutResult.invalidWarehouse, db)
  | some w =>
      let bal := get_warehouse_balance_stock db w.warehouseId
      if bal.balance < quantityMt then (StockOutResult.insufficientStock, db)
      else
        match add_builty db builtyNumber quantityMt with
        | (none, db1) => (StockOutResult.builtyCreateFailed, db1)
        | (some bid, db1) =>
            let res := add_warehouse_stock_out db1 w.warehouseId
              (some bid) quantityMt
            (StockOutResult.recorded res.1, res.2)

/-- database.add_ebill: INSERT INTO ebills.  The only table constraint a
second bill can violate is UNIQUE on ebill_number (builty_id carries no
uniqueness); a violated constraint makes the INSERT raise, the handler
rolls back and returns None. -/
def add_ebill (db : DB) (builtyId : Nat) (ebillNumber : String)
    (amount : ℚ) : Option Nat × DB :=
  if db.ebills.any (fun e => e.ebillNumber = ebillNumber) then (none, db)
  else
    (some db.nextEbillId,
     { db with
         ebills := db.ebills ++
           [{ ebillId := db.nextEbillId, builtyId := builtyId,
              ebillNumber := ebillNumber, amount := amount }],
         nextEbillId := db.nextEbillId + 1 })

/-- Number of bills held by a given builty in the ebills table. -/
def billCountForDoc (db : DB) (b : Nat) : Nat :=
  (db.ebills.filter (fun e => e.builtyId = b)).length

/-- Number of IN stock rows referencing a given builty, across all
warehouses, dangling warehouse ids included. -/
def docInCount (db : DB) (b : Nat) : Nat :=
  (db.warehouseStock.filter (fun e =>
    e.builtyId = some b ∧ e.transactionType = TxType.tIn)).length

/-- Number of IN stock rows referencing a given builty that sit at a
warehouse present in the warehouses table — the rows the duplicate
query's inner join can see. -/
def docInRegCount (db : DB) (b : Nat) : Nat :=
  (db.warehouseStock.filter (fun e =>
    isRegisteredWarehouse db e.warehouseId ∧
    e.builtyId = some b ∧ e.transactionType = TxType.tIn)).length

/-- Cumulative IN quantity recorded against a given builty, across all
warehouses (the quantity side of spec invariant 2). -/
def docInSum (db : DB) (b : Nat) : ℚ :=
  ((db.warehouseStock.filter (fun e =>
    e.builtyId = some b ∧ e.transactionType = TxType.tIn)).map
    (fun e => e.quantityMt)).sum

/-- The slip row inserted by the create-loading-slip route. -/
def newSlip (db : DB) (code : String) (n : Nat) (q : ℚ) : LoadingSlip :=
  { slipId := db.nextSlipId, rakeCode := code, slipNumber := n,
    quantityMt := q, builtyId := none }

/-- Spec invariant 1: for every rake reachable by code lookup, the
dispatched sum of its loading slips stays within its total quantity. -/
def rakeInvariant (db : DB) : Prop :=
  ∀ code r, getRakeByCode db code = some r →
    dispatchedOf db.loadingSlips code ≤ r.rrQuantity

/-- A sequence of create-loading-slip requests (rake code, serial,
quantity) applied through the route handler. -/
def runAllocations (db : DB) (reqs : List (String × Nat × ℚ)) : DB :=
  reqs.foldl
    (fun d req => (rakepoint_create_loading_slip d req.1 req.2.1 req.2.2).2) db

/-- A rake R1 of 100 MT with a single 60 MT loading slip. -/
def rakeR1 : Rake :=
  { rakeCode := "R1", rrQuantity := 100, isClosed := false,
    closedAt := none, shortage := 0 }

def dbA : DB :=
  { rakes := [rakeR1],
    loadingSlips := [{ slipId := 1, rakeCode := "R1", slipNumber := 1,
                       quantityMt := 60, builtyId := none }],
    builties := [], warehouses := [], warehouseStock := [], ebills := [],
    nextSlipId := 2, nextBuiltyId := 1, nextStockId := 1, nextEbillId := 1 }

/-- A rake R1 of 100 MT, already closed (closed_at = 1, shortage = 10),
with a single 90 MT loading slip. -/
def rakeR1closed : Rake :=
  { rakeCode := "R1", rrQuantity := 100, isClosed := true,
    closedAt := some 1, shortage := 10 }

def dbB : DB :=
  { rakes := [rakeR1closed],
    loadingSlips := [{ slipId := 1, rakeCode := "R1", slipNumber := 1,
                       quantityMt := 90, builtyId := none }],
    builties := [], warehouses := [], warehouseStock := [], ebills := [],
    nextSlipId := 2, nextBuiltyId := 1, nextStockId := 1, nextEbillId := 1 }

/-- A loading slip already linked to builty 1. -/
def dbC : DB :=
  { rakes := [rakeR1],
    loadingSlips := [{ slipId := 1, rakeCode := "R1", slipNumber := 1,
                       quantityMt := 60, builtyId := some 1 }],
    builties := [{ builtyId := 1, builtyNumber := "B1", quantityMt := 60 },
                 { builtyId := 2, builtyNumber := "B2", quantityMt := 60 }],
    warehouses := [], warehouseStock := [], ebills := [],
    nextSlipId := 2, nextBuiltyId := 3, nextStockId := 1, nextEbillId := 1 }

/-- One builty with an existing bill B100. -/
def dbD : DB :=
  { rakes := [], loadingSlips := [],
    builties := [{ builtyId := 1, builtyNumber := "B1", quantityMt := 100 }],
    warehouses := [], warehouseStock := [],
    ebills := [{ ebillId := 1, builtyId := 1, ebillNumber := "B100",
                 amount := 500 }],
    nextSlipId := 1, nextBuiltyId := 2, nextStockId := 1, nextEbillId := 2 }

/-- The stock row inserted by a stock-in call. -/
def newInEntry (db : DB) (wid : Nat) (bid : Option Nat) (q : ℚ) : StockEntry :=
  { stockId := db.nextStockId, warehouseId := wid, builtyId := bid,
    transactionType := TxType.tIn, quantityMt := q }

/-- A 20 MT builty B1 headed for warehouse 7, nothing recorded yet. -/
def dbE : DB :=
  { rakes := [], loadingSlips := [],
    builties := [{ builtyId := 1, builtyNumber := "B1", quantityMt := 20 }],
    warehouses := [{ warehouseId := 7, warehouseName := "WH1" }],
    warehouseStock := [], ebills := [],
    nextSlipId := 1, nextBuiltyId := 2, nextStockId := 1, nextEbillId := 1 }

/-- Warehouse 7 already holds the IN entry of builty 1. -/
def dbF : DB :=
  { rakes := [], loadingSlips := [],
    builties := [{ builtyId := 1, builtyNumber := "B1", quantityMt := 20 }],
    warehouses := [{ warehouseId := 7, warehouseName := "WH1" }],
    warehouseStock := [{ stockId := 1, warehouseId := 7, builtyId := some 1,
                         transactionType := TxType.tIn, quantityMt := 20 }],
    ebills := [],
    nextSlipId := 1, nextBuiltyId := 2, nextStockId := 2, nextEbillId := 1 }

/-- Single stock-in per document over the rows the duplicate check can
see: every builty has at most one IN stock row at registered
warehouses. -/
def docUniqueReg (db : DB) : Prop := ∀ b, docInRegCount db b ≤ 1

/-- A sequence of stock-in requests (warehouse, optional builty, quantity)
applied through the route handler. -/
def runStockIns (db : DB) (reqs : List (Nat × Option Nat × ℚ)) : DB :=
  reqs.foldl (fun d req => (warehouse_stock_in d req.1 req.2.1 req.2.2).2) db

/-- The stock row inserted by the stock-out route. -/
def newOutEntry (db : DB) (wid : Nat) (bid : Option Nat) (q : ℚ) : StockEntry :=
  { stockId := db.nextStockId, warehouseId := wid, builtyId := bid,
    transactionType := TxType.tOut, quantityMt := q }

/-- Warehouse 7 named WH1 with 20 MT in stock. -/
def dbG : DB :=
  { rakes := [], loadingSlips := [],
    builties := [{ builtyId := 1, builtyNumber := "B1", quantityMt := 20 }],
    warehouses := [{ warehouseId := 7, warehouseName := "WH1" }],
    warehouseStock := [{ stockId := 1, warehouseId := 7, builtyId := some 1,
                         transactionType := TxType.tIn, quantityMt := 20 }],
    ebills := [],
    nextSlipId := 1, nextBuiltyId := 2, nextStockId := 2, nextEbillId := 1 }

/-- Builty 1 already has an IN entry, but it sits at warehouse id 99,
which has no warehouses row (the stock-in POST takes the id from an
unvalidated form field and foreign keys are never enabled). -/
def dbH : DB :=
  { rakes := [], loadingSlips := [],
    builties := [{ builtyId := 1, builtyNumber := "B1", quantityMt := 20 }],
    warehouses := [{ warehouseId := 7, warehouseName := "WH1" }],
    warehouseStock := [{ stockId := 1, warehouseId := 99, builtyId := some 1,
                         transactionType := TxType.tIn, quantityMt := 20 }],
    ebills := [],
    nextSlipId := 1, nextBuiltyId := 2, nextStockId := 2, nextEbillId := 1 }

lemma dispatchedOf_append_single (slips : List LoadingSlip) (s : LoadingSlip)
    (code : String) :
    dispatchedOf (slips ++ [s]) code
      = dispatchedOf slips code
        + (if s.rakeCode = code then s.quantityMt else 0) := by
  unfold dispatchedOf
  rw [List.filter_append, List.map_append, List.sum_append]
  by_cases h : s.rakeCode = code
  · simp [h]
  · simp [h]

lemma find?_map_pred {α : Type} (l : List α) (u : α → α) (p : α → Bool)
    (h : ∀ x, p (u x) = p x) :
    (l.map u).find? p = (l.find? p).map u := by
  induction l with
  | nil => rfl
  | cons a t ih =>
    cases hpa : p a with
    | true =>
      rw [List.map_cons, List.find?_cons_of_pos _ (by rw [h]; exact hpa),
        List.find?_cons_of_pos _ hpa]
      rfl
    | false =>
      rw [List.map_cons,
        List.find?_cons_of_neg _ (by rw [h, hpa]; exact Bool.false_ne_true),
        List.find?_cons_of_neg _ (by rw [hpa]; exact Bool.false_ne_true), ih]

lemma getRakeByCode_props (db : DB) (code : String) (r : Rake)
    (h : getRakeByCode db code = some r) :
    r ∈ db.rakes ∧ r.rakeCode = code := by
  unfold getRakeByCode at h
  refine ⟨List.mem_of_find?_eq_some h, ?_⟩
  have := List.find?_some h
  simpa using this

lemma create_slip_invalid (db : DB) (code : String) (n : Nat) (q : ℚ)
    (h : get_rake_balance db code = none) :
    rakepoint_create_loading_slip db code n q = (SlipResult.invalidRake, db) := by
  unfold rakepoint_create_loading_slip
  rw [h]

lemma create_slip_insufficient (db : DB) (code : String) (n : Nat) (q : ℚ)
    (bal : RakeBalance) (h : get_rake_balance db code = some bal)
    (hlt : bal.remaining < q) :
    rakepoint_create_loading_slip db code n q
      = (SlipResult.insufficientBalance bal.remaining q, db) := by
  unfold rakepoint_create_loading_slip
  rw [h]
  simp [hlt]

lemma create_slip_success (db : DB) (code : String) (n : Nat) (q : ℚ)
    (bal : RakeBalance) (h : get_rake_balance db code = some bal)
    (hle : ¬ bal.remaining < q) :
    rakepoint_create_loading_slip db code n q
      = (SlipResult.created db.nextSlipId,
         { db with
             loadingSlips := db.loadingSlips ++ [newSlip db code n q],
             nextSlipId := db.nextSlipId + 1 }) := by
  unfold rakepoint_create_loading_slip add_loading_slip newSlip
  rw [h]
  simp [hle]

lemma get_rake_balance_eq (db : DB) (code : String) (r : Rake)
    (hr : getRakeByCode db code = some r) :
    get_rake_balance db code
      = some { total := r.rrQuantity,
               dispatched := dispatchedOf db.loadingSlips code,
               remaining := r.rrQuantity - dispatchedOf db.loadingSlips code } := by
  unfold get_rake_balance
  rw [hr]

lemma rakeInvariant_step (db : DB) (code : String) (n : Nat) (q : ℚ)
    (hinv : rakeInvariant db) :
    rakeInvariant (rakepoint_create_loading_slip db code n q).2 := by
  rcases hbal : get_rake_balance db code with _ | bal
  · rw [create_slip_invalid db code n q hbal]
    exact hinv
  · by_cases hlt : bal.remaining < q
    · rw [create_slip_insufficient db code n q bal hbal hlt]
      exact hinv
    · rw [create_slip_success db code n q bal hbal hlt]
      intro code2 r2 hfind2
      have hfind2d : getRakeByCode db code2 = some r2 := hfind2
      show dispatchedOf (db.loadingSlips ++ [newSlip db code n q]) code2
        ≤ r2.rrQuantity
      rw [dispatchedOf_append_single]
      by_cases hc : (newSlip db code n q).rakeCode = code2
      · have hcc : code = code2 := hc
        subst hcc
        rw [if_pos hc]
        rcases hr : getRakeByCode db code with _ | r
        · rw [get_rake_balance_eq db code r2 hfind2d] at hbal
          rw [hr] at hfind2d
          exact absurd hfind2d (by simp)
        · have hrr : r = r2 := by
            rw [hr] at hfind2d
            exact Option.some.inj hfind2d
          subst hrr
          rw [get_rake_balance_eq db code r hr] at hbal
          have hbal2 := Option.some.inj hbal
          have hrem : bal.remaining
              = r.rrQuantity - dispatchedOf db.loadingSlips code := by
            rw [← hbal2]
          rw [hrem] at hlt
          have hq : q ≤ r.rrQuantity - dispatchedOf db.loadingSlips code :=
            le_of_not_lt hlt
          have hq2 : (newSlip db code n q).quantityMt = q := rfl
          rw [hq2]
          linarith
      · rw [if_neg hc, add_zero]
        exact hinv code2 r2 hfind2d

lemma rakeInvariant_run (db : DB) (reqs : List (String × Nat × ℚ))
    (hinv : rakeInvariant db) : rakeInvariant (runAllocations db reqs) := by
  induction reqs generalizing db with
  | nil => exact hinv
  | cons req t ih =>
    exact ih _ (rakeInvariant_step db req.1 req.2.1 req.2.2 hinv)

/-- Claim C1: a create-allocation call whose quantity exceeds the rake's
remaining balance (total minus the dispatched sum of its loading slips)
fails with the insufficient-balance error and leaves the database
unchanged, and consequently, starting from a state where every rake's
dispatched sum is within its total, any sequence of create-allocation
calls preserves that bound. -/
theorem createAllocation_balance_guard (db : DB) (hinv : rakeInvariant db) :
    (∀ code n q bal, get_rake_balance db code = some bal → bal.remaining < q →
        rakepoint_create_loading_slip db code n q
          = (SlipResult.insufficientBalance bal.remaining q, db)) ∧
    (∀ reqs, rakeInvariant (runAllocations db reqs)) := by
  constructor
  · intro code n q bal hbal hlt
    exact create_slip_insufficient db code n q bal hbal hlt
  · intro reqs
    exact rakeInvariant_run db reqs hinv

lemma rakeInvariant_dbA : rakeInvariant dbA := by
  intro code r h
  unfold getRakeByCode at h
  by_cases hc : ("R1" : String) = code
  · subst hc
    rw [show dbA.rakes = [rakeR1] from rfl,
      List.find?_cons_of_pos _ (by simp [rakeR1])] at h
    obtain rfl := Option.some.inj h
    norm_num [dispatchedOf, dbA, rakeR1, List.filter]
  · rw [show dbA.rakes = [rakeR1] from rfl,
      List.find?_cons_of_neg _ (by simp [rakeR1, hc])] at h
    exact absurd h (by simp)

/-- C1 witness. -/
theorem createAllocation_balance_guard_witness :
    rakepoint_create_loading_slip dbA "R1" 2 50
      = (SlipResult.insufficientBalance 40 50, dbA) ∧
    rakeInvariant (runAllocations dbA [("R1", 2, 30)]) := by
  have h := createAllocation_balance_guard dbA rakeInvariant_dbA
  constructor
  · have h1 := h.1 "R1" 2 50
      { total := 100, dispatched := 60, remaining := 40 }
      (by norm_num [get_rake_balance, getRakeByCode, dispatchedOf, dbA,
        rakeR1, List.find?, List.filter]) (by norm_num)
    exact h1
  · exact h.2 [("R1", 2, 30)]

lemma closeRow_rakeCode (code : String) (s : ℚ) (now : Nat) (x : Rake) :
    (closeRow code s now x).rakeCode = x.rakeCode := by
  unfold closeRow
  split <;> rfl

lemma reopenRow_rakeCode (code : String) (x : Rake) :
    (reopenRow code x).rakeCode = x.rakeCode := by
  unfold reopenRow
  split <;> rfl

lemma getRakeByCode_map (db : DB) (u : Rake → Rake)
    (hu : ∀ x, (u x).rakeCode = x.rakeCode) (code : String) :
    getRakeByCode { db with rakes := db.rakes.map u } code
      = (getRakeByCode db code).map u := by
  unfold getRakeByCode
  exact find?_map_pred db.rakes u _ (fun x => by simp [hu])

lemma close_rake_found (db : DB) (code : String) (now : Nat) (r : Rake)
    (hr : getRakeByCode db code = some r) :
    close_rake db code now
      = (CloseResult.closed (r.rrQuantity - dispatchedOf db.loadingSlips code),
         { db with rakes := db.rakes.map (closeRow code (r.rrQuantity - dispatchedOf db.loadingSlips code) now) }) := by
  unfold close_rake
  rw [hr]

/-- Claim C9: closing an existing open rake returns shortage = total
quantity minus the dispatched sum of its loading slips, and persists the
rake with that shortage, the closed flag set, and the closure
timestamp. -/
theorem close_rake_open_spec (db : DB) (code : String) (now : Nat) (r : Rake)
    (hr : getRakeByCode db code = some r) (_hopen : r.isClosed = false) :
    close_rake db code now
      = (CloseResult.closed (r.rrQuantity - dispatchedOf db.loadingSlips code),
         { db with rakes := db.rakes.map (closeRow code (r.rrQuantity - dispatchedOf db.loadingSlips code) now) }) ∧
    getRakeByCode (close_rake db code now).2 code
      = some { r with isClosed := true, closedAt := some now,
                      shortage := r.rrQuantity - dispatchedOf db.loadingSlips code } := by
  refine ⟨close_rake_found db code now r hr, ?_⟩
  rw [close_rake_found db code now r hr]
  rw [getRakeByCode_map db _ (closeRow_rakeCode code _ now) code, hr]
  have hcode : r.rakeCode = code := (getRakeByCode_props db code r hr).2
  simp [closeRow, hcode]

/-- C9 witness. -/
theorem close_rake_open_spec_witness :
    (close_rake dbA "R1" 7).1 = CloseResult.closed 40 ∧
    getRakeByCode (close_rake dbA "R1" 7).2 "R1"
      = some { rakeCode := "R1", rrQuantity := 100, isClosed := true,
               closedAt := some 7, shortage := 40 } := by
  have hr : getRakeByCode dbA "R1" = some rakeR1 := by
    norm_num [getRakeByCode, dbA, rakeR1, List.find?]
  have h := close_rake_open_spec dbA "R1" 7 rakeR1 hr rfl
  constructor
  · rw [h.1]
    norm_num [rakeR1, dispatchedOf, dbA, List.filter]
  · rw [h.2]
    norm_num [rakeR1, dispatchedOf, dbA, List.filter]

lemma getRakeByCode_dbB : getRakeByCode dbB "R1" = some rakeR1closed := by
  rfl

/-- C6 counterexample: close_rake on the already-closed rake R1 does not
fail — it returns the recomputed shortage and rewrites the closure
timestamp, so the state changes. -/
theorem close_rake_already_closed_counterexample :
    (getRakeByCode dbB "R1").map Rake.isClosed = some true ∧
    (close_rake dbB "R1" 5).1 = CloseResult.closed 10 ∧
    (getRakeByCode (close_rake dbB "R1" 5).2 "R1").map Rake.closedAt
      = some (some 5) := by
  refine ⟨by rw [getRakeByCode_dbB]; rfl, ?_, ?_⟩
  · rw [close_rake_found dbB "R1" 5 rakeR1closed getRakeByCode_dbB]
    norm_num [rakeR1closed, dispatchedOf, dbB, List.filter]
  · rw [close_rake_found dbB "R1" 5 rakeR1closed getRakeByCode_dbB]
    rw [getRakeByCode_map dbB _ (closeRow_rakeCode "R1" _ 5) "R1",
      getRakeByCode_dbB]
    simp [closeRow, rakeR1closed]

/-- Claim C6 (amended): CloseRake returns NotFound for an unknown code;
for any existing rake — open or already closed — it recomputes and
persists shortage = total minus dispatched and re-stamps the closure:
there is no AlreadyClosed error. -/
theorem close_rake_no_alreadyClosed_check (db : DB) (code : String)
    (now : Nat) :
    (getRakeByCode db code = none →
        close_rake db code now = (CloseResult.notFound, db)) ∧
    (∀ r, getRakeByCode db code = some r →
        (close_rake db code now).1
            = CloseResult.closed (r.rrQuantity - dispatchedOf db.loadingSlips code) ∧
        getRakeByCode (close_rake db code now).2 code
            = some { r with isClosed := true, closedAt := some now,
                            shortage := r.rrQuantity - dispatchedOf db.loadingSlips code }) := by
  constructor
  · intro h
    unfold close_rake
    rw [h]
  · intro r hr
    constructor
    · rw [close_rake_found db code now r hr]
    · rw [close_rake_found db code now r hr]
      rw [getRakeByCode_map db _ (closeRow_rakeCode code _ now) code, hr]
      have hcode : r.rakeCode = code := (getRakeByCode_props db code r hr).2
      simp [closeRow, hcode]

/-- C6 witness. -/
theorem close_rake_no_alreadyClosed_check_witness :
    close_rake dbB "ZZ" 5 = (CloseResult.notFound, dbB) ∧
    (close_rake dbB "R1" 5).1 = CloseResult.closed 10 := by
  constructor
  · exact (close_rake_no_alreadyClosed_check dbB "ZZ" 5).1 (by rfl)
  · have h := ((close_rake_no_alreadyClosed_check dbB "R1" 5).2 rakeR1closed
      getRakeByCode_dbB).1
    rw [h]
    norm_num [rakeR1closed, dispatchedOf, dbB, List.filter]

/-- Claim C3 (code behaviour at the failing input): reopening the closed
rake R1, whose stored shortage is 10, resets the stored shortage to 0 and
nulls the closure timestamp instead of retaining the last-computed
value. -/
theorem reopen_rake_zeroes_shortage :
    (getRakeByCode dbB "R1").map Rake.shortage = some 10 ∧
    (reopen_rake dbB "R1").1 = ReopenResult.reopened ∧
    (getRakeByCode (reopen_rake dbB "R1").2 "R1").map Rake.shortage
      = some 0 ∧
    (getRakeByCode (reopen_rake dbB "R1").2 "R1").map Rake.closedAt
      = some none := by
  have hbody : reopen_rake dbB "R1"
      = (ReopenResult.reopened,
         { dbB with rakes := dbB.rakes.map (reopenRow "R1") }) := by
    unfold reopen_rake
    rw [getRakeByCode_dbB]
    norm_num [rakeR1closed]
  refine ⟨by rw [getRakeByCode_dbB]; rfl, by rw [hbody], ?_, ?_⟩
  · rw [hbody, getRakeByCode_map dbB _ (reopenRow_rakeCode "R1") "R1",
      getRakeByCode_dbB]
    simp [reopenRow, rakeR1closed]
  · rw [hbody, getRakeByCode_map dbB _ (reopenRow_rakeCode "R1") "R1",
      getRakeByCode_dbB]
    simp [reopenRow, rakeR1closed]

lemma linkRow_slipId (i b : Nat) (s : LoadingSlip) :
    (linkRow i b s).slipId = s.slipId := by
  unfold linkRow
  split <;> rfl

lemma findSlip_map (db : DB) (u : LoadingSlip → LoadingSlip)
    (hu : ∀ x, (u x).slipId = x.slipId) (i : Nat) :
    findSlip { db with loadingSlips := db.loadingSlips.map u } i
      = (findSlip db i).map u := by
  unfold findSlip
  exact find?_map_pred db.loadingSlips u _ (fun x => by simp [hu])

lemma findSlip_props (db : DB) (i : Nat) (s : LoadingSlip)
    (h : findSlip db i = some s) :
    s ∈ db.loadingSlips ∧ s.slipId = i := by
  unfold findSlip at h
  refine ⟨List.mem_of_find?_eq_some h, ?_⟩
  have := List.find?_some h
  simpa using this

lemma link_found (db : DB) (i b : Nat) (s : LoadingSlip)
    (hs : findSlip db i = some s) :
    link_loading_slip_to_builty db i b
      = (true, { db with loadingSlips := db.loadingSlips.map (linkRow i b) }) := by
  unfold link_loading_slip_to_builty
  rw [hs]

/-- Claim C5 (amended): linking an unknown allocation fails and changes
nothing.  Linking an existing allocation always succeeds and sets its
link to the given document: if it was already linked to that same
document the state is unchanged, and if it was linked to a different
document the link is silently overwritten — there is no already-linked
error. -/
theorem link_slip_overwrites (db : DB) (slipId builtyId : Nat) :
    (findSlip db slipId = none →
        link_loading_slip_to_builty db slipId builtyId = (false, db)) ∧
    (∀ s, findSlip db slipId = some s →
        (link_loading_slip_to_builty db slipId builtyId).1 = true ∧
        findSlip (link_loading_slip_to_builty db slipId builtyId).2 slipId
          = some { s with builtyId := some builtyId } ∧
        ((∀ x ∈ db.loadingSlips, x.slipId = slipId → x.builtyId = some builtyId) →
            (link_loading_slip_to_builty db slipId builtyId).2 = db)) := by
  constructor
  · intro h
    unfold link_loading_slip_to_builty
    rw [h]
  · intro s hs
    refine ⟨by rw [link_found db slipId builtyId s hs], ?_, ?_⟩
    · rw [link_found db slipId builtyId s hs]
      rw [findSlip_map db _ (linkRow_slipId slipId builtyId) slipId, hs]
      have hid : s.slipId = slipId := (findSlip_props db slipId s hs).2
      simp [linkRow, hid]
    · intro hall
      rw [link_found db slipId builtyId s hs]
      have hmap : db.loadingSlips.map (linkRow slipId builtyId)
          = db.loadingSlips := by
        have h1 : ∀ x ∈ db.loadingSlips, linkRow slipId builtyId x = id x := by
          intro x hx
          unfold linkRow
          by_cases hxi : x.slipId = slipId
          · rw [if_pos hxi, ← hall x hx hxi]
            rfl
          · rw [if_neg hxi]
            rfl
        exact (List.map_congr_left h1).trans (List.map_id _)
      rw [hmap]

/-- C5 counterexample: linking slip 1 (already linked to builty 1) to
builty 2 succeeds and overwrites the link, instead of failing with an
already-linked error and leaving the link unchanged. -/
theorem link_slip_overwrite_counterexample :
    (findSlip dbC 1).map LoadingSlip.builtyId = some (some 1) ∧
    (link_loading_slip_to_builty dbC 1 2).1 = true ∧
    (findSlip (link_loading_slip_to_builty dbC 1 2).2 1).map
        LoadingSlip.builtyId = some (some 2) := by
  refine ⟨by rfl, by rfl, by rfl⟩

/-- C5 witness. -/
theorem link_slip_overwrites_witness :
    (link_loading_slip_to_builty dbC 1 1).1 = true ∧
    (link_loading_slip_to_builty dbC 1 1).2 = dbC ∧
    link_loading_slip_to_builty dbC 9 1 = (false, dbC) := by
  have h := (link_slip_overwrites dbC 1 1).2
    { slipId := 1, rakeCode := "R1", slipNumber := 1,
      quantityMt := 60, builtyId := some 1 } (by rfl)
  refine ⟨h.1, h.2.2 ?_, (link_slip_overwrites dbC 9 1).1 (by rfl)⟩
  intro x hx hxi
  have : x = { slipId := 1, rakeCode := "R1", slipNumber := 1,
               quantityMt := 60, builtyId := some 1 } := by
    simpa [dbC] using hx
  rw [this]

lemma add_ebill_number_taken (db : DB) (b : Nat) (num : String) (amt : ℚ)
    (h : db.ebills.any (fun e => e.ebillNumber = num) = true) :
    add_ebill db b num amt = (none, db) := by
  unfold add_ebill
  simp [h]

lemma add_ebill_number_fresh (db : DB) (b : Nat) (num : String) (amt : ℚ)
    (h : db.ebills.any (fun e => e.ebillNumber = num) = false) :
    add_ebill db b num amt
      = (some db.nextEbillId,
         { db with
             ebills := db.ebills ++ [{ ebillId := db.nextEbillId, builtyId := b, ebillNumber := num, amount := amt }],
             nextEbillId := db.nextEbillId + 1 }) := by
  unfold add_ebill
  simp [h]

/-- Claim C2 (amended): the bill store enforces uniqueness only on the
bill number, not on the document id.  A CreateBill whose number is taken
fails and leaves the store unchanged; a CreateBill with a fresh number
succeeds and appends a bill for the document even when the document is
already billed, so its bill count grows by one. -/
theorem add_ebill_unique_number_only (db : DB) (b : Nat) (num : String)
    (amt : ℚ) :
    (db.ebills.any (fun e => e.ebillNumber = num) = true →
        add_ebill db b num amt = (none, db)) ∧
    (db.ebills.any (fun e => e.ebillNumber = num) = false →
        (add_ebill db b num amt).1 = some db.nextEbillId ∧
        billCountForDoc (add_ebill db b num amt).2 b
          = billCountForDoc db b + 1) := by
  constructor
  · exact add_ebill_number_taken db b num amt
  · intro h
    rw [add_ebill_number_fresh db b num amt h]
    refine ⟨rfl, ?_⟩
    show ((db.ebills ++ [({ ebillId := db.nextEbillId, builtyId := b, ebillNumber := num, amount := amt } : Ebill)]).filter
      (fun e => e.builtyId = b)).length = billCountForDoc db b + 1
    rw [List.filter_append]
    simp [billCountForDoc]

/-- C2 counterexample: a second bill for the already-billed builty 1
succeeds as long as the bill number is fresh — no uniqueness on the
document id exists, so the store ends up with two bills for it. -/
theorem add_ebill_second_bill_counterexample :
    billCountForDoc dbD 1 = 1 ∧
    (add_ebill dbD 1 "B101" 300).1 = some 2 ∧
    billCountForDoc (add_ebill dbD 1 "B101" 300).2 1 = 2 := by
  refine ⟨by rfl, by rfl, by rfl⟩

/-- C2 witness. -/
theorem add_ebill_unique_number_only_witness :
    add_ebill dbD 1 "B100" 300 = (none, dbD) ∧
    (add_ebill dbD 1 "B101" 300).1 = some 2 ∧
    billCountForDoc (add_ebill dbD 1 "B101" 300).2 1
      = billCountForDoc dbD 1 + 1 := by
  have h1 := (add_ebill_unique_number_only dbD 1 "B100" 300).1 (by rfl)
  have h2 := (add_ebill_unique_number_only dbD 1 "B101" 300).2 (by rfl)
  exact ⟨h1, h2.1, h2.2⟩

lemma stock_in_dup (db : DB) (wid b : Nat) (q : ℚ)
    (h : hasStockInForBuilty db b = true) :
    warehouse_stock_in db wid (some b) q = (StockInResult.duplicateEntry, db) := by
  unfold warehouse_stock_in
  simp [h]

lemma stock_in_fresh (db : DB) (wid b : Nat) (q : ℚ)
    (h : hasStockInForBuilty db b = false) :
    warehouse_stock_in db wid (some b) q
      = (StockInResult.recorded db.nextStockId,
         { db with
             warehouseStock := db.warehouseStock ++ [newInEntry db wid (some b) q],
             nextStockId := db.nextStockId + 1 }) := by
  unfold warehouse_stock_in add_warehouse_stock_in newInEntry
  simp [h]

lemma stock_in_direct (db : DB) (wid : Nat) (q : ℚ) :
    warehouse_stock_in db wid none q
      = (StockInResult.recorded db.nextStockId,
         { db with
             warehouseStock := db.warehouseStock ++ [newInEntry db wid none q],
             nextStockId := db.nextStockId + 1 }) := by
  unfold warehouse_stock_in add_warehouse_stock_in newInEntry
  rfl

/-- Claim C4 (amended): stock-in with a document id performs no
comparison against the document's quantity.  It is rejected, with no
insert, exactly when the document already has an IN entry at a warehouse
present in the warehouses table (the duplicate query inner-joins
warehouses); otherwise the entry is inserted whatever its quantity, so a
first IN entry may exceed the document's quantity. -/
theorem warehouse_stock_in_no_doc_qty_check (db : DB) (wid b : Nat) (q : ℚ) :
    (hasStockInForBuilty db b = true →
        warehouse_stock_in db wid (some b) q
          = (StockInResult.duplicateEntry, db)) ∧
    (hasStockInForBuilty db b = false →
        warehouse_stock_in db wid (some b) q
          = (StockInResult.recorded db.nextStockId,
             { db with
                 warehouseStock := db.warehouseStock ++ [newInEntry db wid (some b) q],
                 nextStockId := db.nextStockId + 1 })) :=
  ⟨stock_in_dup db wid b q, stock_in_fresh db wid b q⟩

/-- C4 counterexample: the first stock-in against builty 1 (quantity 20)
records 25 MT — more than the document carries — because the handler never
compares the quantity with the document. -/
theorem stock_in_exceeds_doc_counterexample :
    (dbE.builties.find? (fun x => x.builtyId = 1)).map Builty.quantityMt
      = some 20 ∧
    (warehouse_stock_in dbE 7 (some 1) 25).1 = StockInResult.recorded 1 ∧
    docInSum (warehouse_stock_in dbE 7 (some 1) 25).2 1 = 25 ∧
    (20 : ℚ) < 25 := by
  refine ⟨by rfl, by rfl, ?_, by norm_num⟩
  rw [stock_in_fresh dbE 7 1 25 (by rfl)]
  norm_num [docInSum, newInEntry, dbE, List.filter]

/-- C4 witness. -/
theorem warehouse_stock_in_no_doc_qty_check_witness :
    warehouse_stock_in dbF 9 (some 1) 5 = (StockInResult.duplicateEntry, dbF) ∧
    warehouse_stock_in dbE 7 (some 1) 25
      = (StockInResult.recorded 1,
         { dbE with
             warehouseStock := dbE.warehouseStock ++ [newInEntry dbE 7 (some 1) 25],
             nextStockId := 2 }) :=
  ⟨(warehouse_stock_in_no_doc_qty_check dbF 9 1 5).1 (by rfl),
   (warehouse_stock_in_no_doc_qty_check dbE 7 1 25).2 (by rfl)⟩

lemma filter_append_single_length {α : Type} (l : List α) (e : α)
    (p : α → Bool) :
    ((l ++ [e]).filter p).length
      = (l.filter p).length + (if p e then 1 else 0) := by
  rw [List.filter_append]
  by_cases h : p e
  · simp [h]
  · simp [h]

lemma docInRegCount_zero_of_no_dup (db : DB) (b : Nat)
    (h : hasStockInForBuilty db b = false) : docInRegCount db b = 0 := by
  unfold hasStockInForBuilty at h
  unfold docInRegCount
  rw [List.length_eq_zero, List.filter_eq_nil_iff]
  intro e he
  have := List.any_eq_false.mp h e he
  simpa using this

lemma docUniqueReg_step (db : DB) (wid : Nat) (bid : Option Nat) (q : ℚ)
    (hu : docUniqueReg db) :
    docUniqueReg (warehouse_stock_in db wid bid q).2 := by
  cases bid with
  | none =>
    rw [stock_in_direct db wid q]
    intro b
    show ((db.warehouseStock ++ [newInEntry db wid none q]).filter
      (fun e => isRegisteredWarehouse db e.warehouseId ∧
        e.builtyId = some b ∧ e.transactionType = TxType.tIn)).length ≤ 1
    rw [filter_append_single_length]
    have : (decide (isRegisteredWarehouse db (newInEntry db wid none q).warehouseId ∧
        (newInEntry db wid none q).builtyId = some b ∧
        (newInEntry db wid none q).transactionType = TxType.tIn)) = false := by
      simp [newInEntry]
    rw [this]
    exact hu b
  | some b0 =>
    by_cases h : hasStockInForBuilty db b0
    · rw [stock_in_dup db wid b0 q h]
      exact hu
    · rw [stock_in_fresh db wid b0 q (by simpa using h)]
      intro b
      show ((db.warehouseStock ++ [newInEntry db wid (some b0) q]).filter
        (fun e => isRegisteredWarehouse db e.warehouseId ∧
          e.builtyId = some b ∧ e.transactionType = TxType.tIn)).length ≤ 1
      rw [filter_append_single_length]
      by_cases hb : b0 = b
      · subst hb
        have hz : docInRegCount db b0 = 0 :=
          docInRegCount_zero_of_no_dup db b0 (by simpa using h)
        have hc : (docInRegCount db b0) + (if (decide (isRegisteredWarehouse db (newInEntry db wid (some b0) q).warehouseId ∧
            (newInEntry db wid (some b0) q).builtyId = some b0 ∧
            (newInEntry db wid (some b0) q).transactionType = TxType.tIn) : Bool) then 1 else 0) ≤ 1 := by
          rw [hz]
          split <;> omega
        exact hc
      · have : (decide (isRegisteredWarehouse db (newInEntry db wid (some b0) q).warehouseId ∧
            (newInEntry db wid (some b0) q).builtyId = some b ∧
            (newInEntry db wid (some b0) q).transactionType = TxType.tIn)) = false := by
          simp [newInEntry, hb]
        rw [this]
        exact hu b

lemma docUniqueReg_run (db : DB) (reqs : List (Nat × Option Nat × ℚ))
    (hu : docUniqueReg db) : docUniqueReg (runStockIns db reqs) := by
  induction reqs generalizing db with
  | nil => exact hu
  | cons req t ih =>
    exact ih _ (docUniqueReg_step db req.1 req.2.1 req.2.2 hu)

/-- Claim C10 counterexample: builty 1 already has an IN entry, recorded
at warehouse id 99 for which no warehouses row exists, so the duplicate
query's inner join cannot see it.  A second stock-in for builty 1 is
accepted and the ledger ends up with two IN entries for the document. -/
theorem stock_in_dangling_warehouse_counterexample :
    docInCount dbH 1 = 1 ∧
    (dbH.warehouses.any (fun w => w.warehouseId = 99)) = false ∧
    (warehouse_stock_in dbH 7 (some 1) 5).1 = StockInResult.recorded 2 ∧
    docInCount (warehouse_stock_in dbH 7 (some 1) 5).2 1 = 2 := by
  refine ⟨by rfl, by rfl, ?_, ?_⟩
  · rw [stock_in_fresh dbH 7 1 5 (by rfl)]
    rfl
  · rw [stock_in_fresh dbH 7 1 5 (by rfl)]
    rfl

/-- Claim C10 (amended): a stock-in naming a document that already has an
IN entry at a warehouse present in the warehouses table — regardless of
the call's target warehouse — is rejected as a duplicate with the ledger
unchanged, and under any sequence of stock-in calls every document keeps
at most one IN entry at registered warehouses.  Entries recorded under a
dangling warehouse id are invisible to the duplicate check, so the
system-wide bound does not extend to them. -/
theorem stock_in_one_entry_per_document (db : DB) (hu : docUniqueReg db) :
    (∀ wid b q,
        (∃ e ∈ db.warehouseStock,
            isRegisteredWarehouse db e.warehouseId = true ∧
            e.builtyId = some b ∧ e.transactionType = TxType.tIn) →
        warehouse_stock_in db wid (some b) q
          = (StockInResult.duplicateEntry, db)) ∧
    (∀ reqs, docUniqueReg (runStockIns db reqs)) := by
  constructor
  · intro wid b q hex
    apply stock_in_dup
    unfold hasStockInForBuilty
    rw [List.any_eq_true]
    obtain ⟨e, he, h0, h1, h2⟩ := hex
    exact ⟨e, he, by simp [h0, h1, h2]⟩
  · intro reqs
    exact docUniqueReg_run db reqs hu

/-- C10 witness. -/
theorem stock_in_one_entry_per_document_witness :
    warehouse_stock_in dbF 9 (some 1) 5
      = (StockInResult.duplicateEntry, dbF) ∧
    docUniqueReg (runStockIns dbF [(9, some 2, 5), (9, none, 3)]) := by
  have hu : docUniqueReg dbF := fun b => List.length_filter_le _ _
  have h := stock_in_one_entry_per_document dbF hu
  constructor
  · exact h.1 9 1 5
      ⟨{ stockId := 1, warehouseId := 7, builtyId := some 1,
         transactionType := TxType.tIn, quantityMt := 20 },
       by simp [dbF], by rfl, by simp, by simp⟩
  · exact h.2 [(9, some 2, 5), (9, none, 3)]

lemma tIn_ne_tOut : TxType.tIn ≠ TxType.tOut := fun h => TxType.noConfusion h

lemma tOut_ne_tIn : TxType.tOut ≠ TxType.tIn := fun h => TxType.noConfusion h

lemma stockInOf_append_single (l : List StockEntry) (e : StockEntry)
    (wid : Nat) :
    stockInOf (l ++ [e]) wid
      = stockInOf l wid
        + (if e.warehouseId = wid ∧ e.transactionType = TxType.tIn then
             e.quantityMt else 0) := by
  unfold stockInOf
  rw [List.filter_append, List.map_append, List.sum_append]
  by_cases h : e.warehouseId = wid ∧ e.transactionType = TxType.tIn
  · simp [h]
  · simp [h]

lemma stockOutOf_append_single (l : List StockEntry) (e : StockEntry)
    (wid : Nat) :
    stockOutOf (l ++ [e]) wid
      = stockOutOf l wid
        + (if e.warehouseId = wid ∧ e.transactionType = TxType.tOut then
             e.quantityMt else 0) := by
  unfold stockOutOf
  rw [List.filter_append, List.map_append, List.sum_append]
  by_cases h : e.warehouseId = wid ∧ e.transactionType = TxType.tOut
  · simp [h]
  · simp [h]

lemma stock_out_insufficient (db : DB) (name bn : String) (q : ℚ)
    (w : Warehouse)
    (hw : db.warehouses.find? (fun x => x.warehouseName = name) = some w)
    (hlt : (get_warehouse_balance_stock db w.warehouseId).balance < q) :
    warehouse_stock_out db name bn q = (StockOutResult.insufficientStock, db) := by
  unfold warehouse_stock_out
  rw [hw]
  simp [hlt]

lemma stock_out_collision (db : DB) (name bn : String) (q : ℚ)
    (w : Warehouse)
    (hw : db.warehouses.find? (fun x => x.warehouseName = name) = some w)
    (hge : ¬ (get_warehouse_balance_stock db w.warehouseId).balance < q)
    (htaken : db.builties.any (fun x => x.builtyNumber = bn) = true) :
    warehouse_stock_out db name bn q
      = (StockOutResult.builtyCreateFailed, db) := by
  unfold warehouse_stock_out add_builty
  rw [hw]
  simp [hge, htaken]

lemma stock_out_success (db : DB) (name bn : String) (q : ℚ) (w : Warehouse)
    (hw : db.warehouses.find? (fun x => x.warehouseName = name) = some w)
    (hge : ¬ (get_warehouse_balance_stock db w.warehouseId).balance < q)
    (hfresh : db.builties.any (fun x => x.builtyNumber = bn) = false) :
    warehouse_stock_out db name bn q
      = (StockOutResult.recorded db.nextStockId,
         { db with
             builties := db.builties ++ [{ builtyId := db.nextBuiltyId, builtyNumber := bn, quantityMt := q }],
             nextBuiltyId := db.nextBuiltyId + 1,
             warehouseStock := db.warehouseStock ++ [newOutEntry db w.warehouseId (some db.nextBuiltyId) q],
             nextStockId := db.nextStockId + 1 }) := by
  unfold warehouse_stock_out add_builty add_warehouse_stock_out newOutEntry
  rw [hw]
  simp [hge, hfresh]

/-- Claim C8 counterexample: quantity 5 is within the balance 20, yet
nothing is recorded — the auto-generated stock-out builty number collides
with the existing builty B1, add_builty fails on its UNIQUE constraint
and the route stores neither the builty nor the OUT entry. -/
theorem stock_out_collision_counterexample :
    (get_warehouse_balance_stock dbG 7).balance = 20 ∧
    (5 : ℚ) ≤ 20 ∧
    warehouse_stock_out dbG "WH1" "B1" 5
      = (StockOutResult.builtyCreateFailed, dbG) := by
  have hbal : (get_warehouse_balance_stock dbG 7).balance = 20 := by
    norm_num [get_warehouse_balance_stock, stockInOf, stockOutOf, dbG,
      List.filter_cons, tIn_ne_tOut, tOut_ne_tIn]
  refine ⟨hbal, by norm_num, ?_⟩
  exact stock_out_collision dbG "WH1" "B1" 5
    { warehouseId := 7, warehouseName := "WH1" } (by rfl)
    (by rw [hbal]; norm_num) (by rfl)

/-- Claim C8 (amended): stock-out with a quantity strictly greater than
the warehouse balance (IN sum minus OUT sum) fails with the
insufficient-stock error and records nothing; with a quantity at most
the balance and a not-yet-taken generated builty number it records the
OUT entry, and the new balance is the old balance minus the quantity,
still nonnegative; with a quantity at most the balance but a colliding
generated builty number it records neither the builty nor the OUT entry.
In every case the balance never goes below zero. -/
theorem warehouse_stock_out_balance_guard (db : DB) (name bn : String)
    (q : ℚ) (w : Warehouse)
    (hw : db.warehouses.find? (fun x => x.warehouseName = name) = some w) :
    ((get_warehouse_balance_stock db w.warehouseId).balance < q →
        warehouse_stock_out db name bn q
          = (StockOutResult.insufficientStock, db)) ∧
    (¬ (get_warehouse_balance_stock db w.warehouseId).balance < q →
        db.builties.any (fun x => x.builtyNumber = bn) = true →
        warehouse_stock_out db name bn q
          = (StockOutResult.builtyCreateFailed, db)) ∧
    (¬ (get_warehouse_balance_stock db w.warehouseId).balance < q →
        db.builties.any (fun x => x.builtyNumber = bn) = false →
        (warehouse_stock_out db name bn q).1
            = StockOutResult.recorded db.nextStockId ∧
        (get_warehouse_balance_stock (warehouse_stock_out db name bn q).2
            w.warehouseId).balance
          = (get_warehouse_balance_stock db w.warehouseId).balance - q ∧
        0 ≤ (get_warehouse_balance_stock (warehouse_stock_out db name bn q).2
            w.warehouseId).balance) := by
  refine ⟨stock_out_insufficient db name bn q w hw,
    stock_out_collision db name bn q w hw, ?_⟩
  · intro hge hfresh
    rw [stock_out_success db name bn q w hw hge hfresh]
    have hbal : (get_warehouse_balance_stock
        { db with
            builties := db.builties ++ [{ builtyId := db.nextBuiltyId, builtyNumber := bn, quantityMt := q }],
            nextBuiltyId := db.nextBuiltyId + 1,
            warehouseStock := db.warehouseStock ++ [newOutEntry db w.warehouseId (some db.nextBuiltyId) q],
            nextStockId := db.nextStockId + 1 } w.warehouseId).balance
        = (get_warehouse_balance_stock db w.warehouseId).balance - q := by
      show stockInOf (db.warehouseStock ++ [newOutEntry db w.warehouseId (some db.nextBuiltyId) q]) w.warehouseId
          - stockOutOf (db.warehouseStock ++ [newOutEntry db w.warehouseId (some db.nextBuiltyId) q]) w.warehouseId
        = (get_warehouse_balance_stock db w.warehouseId).balance - q
      rw [stockInOf_append_single, stockOutOf_append_single]
      have h1 : ¬ ((newOutEntry db w.warehouseId (some db.nextBuiltyId) q).warehouseId = w.warehouseId
          ∧ (newOutEntry db w.warehouseId (some db.nextBuiltyId) q).transactionType = TxType.tIn) := by
        simp [newOutEntry]
      have h2 : (newOutEntry db w.warehouseId (some db.nextBuiltyId) q).warehouseId = w.warehouseId
          ∧ (newOutEntry db w.warehouseId (some db.nextBuiltyId) q).transactionType = TxType.tOut := by
        simp [newOutEntry]
      rw [if_neg h1, if_pos h2]
      show stockInOf db.warehouseStock w.warehouseId + 0
          - (stockOutOf db.warehouseStock w.warehouseId + q)
        = stockInOf db.warehouseStock w.warehouseId
          - stockOutOf db.warehouseStock w.warehouseId - q
      ring
    refine ⟨rfl, hbal, ?_⟩
    rw [hbal]
    have := le_of_not_lt hge
    linarith

/-- C8 witness. -/
theorem warehouse_stock_out_balance_guard_witness :
    warehouse_stock_out dbG "WH1" "BLTO-1" 25
      = (StockOutResult.insufficientStock, dbG) ∧
    warehouse_stock_out dbG "WH1" "B1" 5
      = (StockOutResult.builtyCreateFailed, dbG) ∧
    (warehouse_stock_out dbG "WH1" "BLTO-1" 5).1
      = StockOutResult.recorded 2 ∧
    (get_warehouse_balance_stock (warehouse_stock_out dbG "WH1" "BLTO-1" 5).2
        7).balance = 15 ∧
    (0:ℚ) ≤ 15 := by
  have hw : dbG.warehouses.find? (fun x => x.warehouseName = "WH1")
      = some { warehouseId := 7, warehouseName := "WH1" } := by rfl
  have hbal : (get_warehouse_balance_stock dbG 7).balance = 20 := by
    norm_num [get_warehouse_balance_stock, stockInOf, stockOutOf, dbG,
      List.filter_cons, tIn_ne_tOut, tOut_ne_tIn]
  have h1 := (warehouse_stock_out_balance_guard dbG "WH1" "BLTO-1" 25
    { warehouseId := 7, warehouseName := "WH1" } hw).1 (by rw [hbal]; norm_num)
  have hcol := (warehouse_stock_out_balance_guard dbG "WH1" "B1" 5
    { warehouseId := 7, warehouseName := "WH1" } hw).2.1
    (by rw [hbal]; norm_num) (by rfl)
  have h2 := (warehouse_stock_out_balance_guard dbG "WH1" "BLTO-1" 5
    { warehouseId := 7, warehouseName := "WH1" } hw).2.2
    (by rw [hbal]; norm_num) (by rfl)
  refine ⟨h1, hcol, h2.1, ?_, by norm_num⟩
  have := h2.2.1
  rw [this, hbal]
  norm_num

/-- Claim C7 (amended): the create-loading-slip handler performs no
closed-rake check; a call naming a closed rake whose remaining balance
covers the quantity inserts the allocation exactly as for an open rake,
with no RakeClosed failure. -/
theorem createLoadingSlip_ignores_closed (db : DB) (code : String) (n : Nat)
    (q : ℚ) (r : Rake) (hr : getRakeByCode db code = some r)
    (_hclosed : r.isClosed = true)
    (hq : ¬ (r.rrQuantity - dispatchedOf db.loadingSlips code) < q) :
    rakepoint_create_loading_slip db code n q
      = (SlipResult.created db.nextSlipId,
         { db with
             loadingSlips := db.loadingSlips ++ [newSlip db code n q],
             nextSlipId := db.nextSlipId + 1 }) :=
  create_slip_success db code n q _ (get_rake_balance_eq db code r hr) hq

/-- C7 counterexample: rake R1 is closed, yet a 5 MT loading slip against
it is accepted and inserted (remaining balance 10), with no RakeClosed
failure. -/
theorem closed_rake_allocation_counterexample :
    (getRakeByCode dbB "R1").map Rake.isClosed = some true ∧
    (rakepoint_create_loading_slip dbB "R1" 2 5).1 = SlipResult.created 2 ∧
    (rakepoint_create_loading_slip dbB "R1" 2 5).2.loadingSlips.length = 2 := by
  have h := create_slip_success dbB "R1" 2 5 _
    (get_rake_balance_eq dbB "R1" rakeR1closed getRakeByCode_dbB)
    (by norm_num [rakeR1closed, dispatchedOf, dbB, List.filter_cons])
  refine ⟨by rw [getRakeByCode_dbB]; rfl, by rw [h]; rfl, by rw [h]; rfl⟩

/-- C7 witness. -/
theorem createLoadingSlip_ignores_closed_witness :
    rakepoint_create_loading_slip dbB "R1" 2 5
      = (SlipResult.created 2,
         { dbB with
             loadingSlips := dbB.loadingSlips ++ [newSlip dbB "R1" 2 5],
             nextSlipId := 3 }) :=
  createLoadingSlip_ignores_closed dbB "R1" 2 5 rakeR1closed
    getRakeByCode_dbB rfl
    (by norm_num [rakeR1closed, dispatchedOf, dbB, List.filter_cons])

end RMS
